import Mathlib

/-!
Verification of the AWP wallpaper-rotation daemon (`awp_daemon.py`) against its
design specification.

The daemon's pure logic is shallowly embedded: its file accesses are modelled by
explicit environment values (configuration sections, directory listings, the
persisted-index file), external command dispatches are recorded in the result of
a step rather than executed, and Python exceptions are modelled with `Option`
or an explicit `crashed` flag.  Image paths are represented by their file names
relative to the workspace folder; modification times are integers supplied by
the environment.  String manipulation is carried out on `List Char` (via
`String.data`) so that every definition evaluates by kernel reduction.
-/

namespace AWP

/-- Python `str.strip()` / no-argument strip: remove leading and trailing
whitespace characters. -/
def strip_ws (l : List Char) : List Char :=
  ((l.dropWhile Char.isWhitespace).reverse.dropWhile Char.isWhitespace).reverse

/-- Numeric value of a non-empty decimal digit string. -/
def digits_val (l : List Char) : Int :=
  l.foldl (fun n c => 10 * n + ((c.toNat - '0'.toNat : Nat) : Int)) 0

/-- Python `int(str)` on a decimal string: surrounding whitespace is stripped,
an optional single leading sign is accepted, and the remainder must be a
non-empty digit string; otherwise a `ValueError` is raised (modelled as
`none`).  Grouping underscores accepted by Python are not modelled. -/
def py_int_chars (l : List Char) : Option Int :=
  match strip_ws l with
  | [] => none
  | c :: rest =>
    let sign : Int := if c = '-' then -1 else 1
    let digits := if c = '-' ∨ c = '+' then rest else c :: rest
    if digits ≠ [] ∧ digits.all Char.isDigit then some (sign * digits_val digits)
    else none

/-- Python `int(str)` lifted to `String`. -/
def py_int (s : String) : Option Int := py_int_chars s.data

/-- `parse_timing` from `awp_daemon.py`: the last character (lowercased)
selects a unit multiplier from `{'s': 1, 'm': 60, 'h': 3600}` with default
`60`, the rest of the string is parsed with `int`; any exception (empty
string, bad number) yields `None`. -/
def parse_timing (timing_str : String) : Option Int :=
  match timing_str.data.getLast? with
  | none => none
  | some u =>
    let unit := u.toLower
    match py_int_chars timing_str.data.dropLast with
    | none => none
    | some n =>
      some (n * (if unit = 's' then 1 else if unit = 'm' then 60 else if unit = 'h' then 3600 else 60))

/-- The expression `parse_timing(timing_str) or 60` used by
`Workspace.__init__` and `Workspace.reload_images_and_index`: `None` and `0`
are falsy and replaced by `60`; any other parse result (including a negative
one) is kept. -/
def ws_timing (timing_str : String) : Int :=
  match parse_timing timing_str with
  | none => 60
  | some n => if n = 0 then 60 else n

/-- Content of the persisted-index file (`indexes.json`).  `json.load` either
fails (`corrupt`: unreadable or unparseable bytes) or yields the stored flat
JSON object, represented as its key/value pairs in order. -/
inductive StateFileVal where
  | corrupt
  | jsonMap (m : List (String × Int))
deriving DecidableEq

/-- The slice of the filesystem owned by the state store: the real state file
and the temporary file used by `save_state`.  `none` means the file is
absent. -/
structure StateFS where
  real : Option StateFileVal
  tmp : Option StateFileVal
deriving DecidableEq

/-- `load_state` from `awp_daemon.py`: a missing file yields `{}`; reading or
parsing failure is caught by the bare `except` and yields `{}`; otherwise the
parsed JSON object is returned. -/
def load_state (fs : StateFS) : List (String × Int) :=
  match fs.real with
  | none => []
  | some .corrupt => []
  | some (.jsonMap m) => m

/-- `save_state` from `awp_daemon.py`: serialize the map into
`indexes.json.tmp` and `os.replace` it over `indexes.json`, leaving no
temporary file behind. -/
def save_state (state : List (String × Int)) (_fs : StateFS) : StateFS :=
  { real := some (.jsonMap state), tmp := none }

/-- C5: saving a valid persisted index map (string keys, non-negative integer
values) and then loading — from the resulting filesystem, or from any later
filesystem whose real state file is unchanged, as after a process restart —
returns the same map. -/
theorem save_load_roundtrip (m : List (String × Int)) (fs fs2 : StateFS)
    (hkeys : (m.map Prod.fst).Nodup) (hvals : ∀ p ∈ m, 0 ≤ p.2)
    (hreal : fs2.real = (save_state m fs).real) :
    load_state fs2 = m := by
  unfold load_state
  rw [hreal]
  rfl

/-- Witness for C5 at a concrete two-workspace index map. -/
theorem save_load_roundtrip_witness :
    load_state (save_state [("ws1", 3), ("ws2", 0)] { real := none, tmp := none })
      = [("ws1", 3), ("ws2", 0)] :=
  save_load_roundtrip [("ws1", 3), ("ws2", 0)] { real := none, tmp := none } _
    (by decide) (by decide) rfl

/-- C6: whatever the temporary file holds, `load_state` returns the empty map
both when the state file is absent and when its contents are corrupt; the
bare `except` clause means no error escapes (the function is total). -/
theorem load_state_missing_or_corrupt :
    ∀ t : Option StateFileVal,
      load_state { real := none, tmp := t } = [] ∧
      load_state { real := some .corrupt, tmp := t } = [] :=
  fun _ => ⟨rfl, rfl⟩

/-- The last four characters of a file name, lowercased. -/
def last4_lower (name : String) : List Char :=
  (name.data.reverse.take 4).reverse.map Char.toLower

/-- A file name matches the glob pattern `*.[jJ][pP][gG]` exactly when its
last four characters lowercase to ".jpg" (`*` in `pathlib.Path.glob` also
matches names containing further dots or starting with a dot). -/
def is_jpg_name (name : String) : Bool := last4_lower name == ".jpg".data

/-- A file name matches the glob pattern `*.[pP][nN][gG]`. -/
def is_png_name (name : String) : Bool := last4_lower name == ".png".data

/-- `load_images` from `awp_daemon.py`.  The argument is the directory listing
of the folder: `none` when `Path(folder).is_dir()` is false (missing or not a
directory, giving `[]`), otherwise the file names in directory order.  The
result is the `*.[jJ][pP][gG]` matches followed by the `*.[pP][nN][gG]`
matches. -/
def load_images (listing : Option (List String)) : List String :=
  match listing with
  | none => []
  | some files => files.filter is_jpg_name ++ files.filter is_png_name

/-- Insert an element into a sorted list, before the first element it is
`le`-related to (keeping earlier-listed elements of equal key first). -/
def insert_sorted (le : α → α → Bool) (x : α) : List α → List α
  | [] => [x]
  | y :: ys => if le x y then x :: y :: ys else y :: insert_sorted le x ys

/-- A stable sort: for a total preorder `le` this computes the same list as
Python's stable `sorted` — ascending, with elements of equal key kept in
their original order. -/
def stable_sort (le : α → α → Bool) : List α → List α
  | [] => []
  | x :: xs => insert_sorted le x (stable_sort le xs)

/-- A file name's sort key in the name orders: `f.name.lower()`. -/
def lower_key (name : String) : List Char := name.data.map Char.toLower

/-- Comparison of lowercased names: Python compares strings lexicographically
by code point, as `List.lt` does on `List Char`. -/
def lex_le (a b : List Char) : Bool := decide (¬ b < a)

/-- `sort_images` from `awp_daemon.py`.  Python's `sorted` is a stable sort by
key (`reverse=True` keeps equal-key elements in their original order too);
`mtime` gives each file's modification time. -/
def sort_images (mtime : String → Int) (images : List String) (order_key : String) : List String :=
  if order_key = "name_az" then
    stable_sort (fun a b => lex_le (lower_key a) (lower_key b)) images
  else if order_key = "name_za" then
    stable_sort (fun a b => lex_le (lower_key b) (lower_key a)) images
  else if order_key = "name_new" then
    stable_sort (fun a b => decide (mtime b ≤ mtime a)) images
  else if order_key = "name_old" then
    stable_sort (fun a b => decide (mtime a ≤ mtime b)) images
  else images

/-- The part of a file name after its final dot (its extension), empty when
the name has no dot. -/
def file_ext_chars (name : String) : List Char :=
  (name.data.reverse.takeWhile (fun c => c != '.')).reverse

/-- Stated from the spec's words, for comparison with `load_images`: the scan
is "restricted to a fixed allow-list of raster extensions (jpg/jpeg/png,
case-insensitive)" — the name contains a dot and the part after the final dot
lowercases to "jpg", "jpeg" or "png". -/
def spec_scan_keeps (name : String) : Bool :=
  name.data.contains '.' &&
    (["jpg", "jpeg", "png"].map String.data).contains ((file_ext_chars name).map Char.toLower)

/-- One `wsN` section of the configuration file, with the keys the daemon
reads; `none` models an absent key (`configparser`'s `get` fallback fires). -/
structure WsSection where
  folder : Option String
  timing : Option String
  mode : Option String
  order : Option String
  scaling : Option String
  icon : Option String
  icon_color : Option String

/-- The environment a daemon step runs in: the configuration file's sections,
the `[conky] enabled` flag the setup wizard writes into the configuration, the
directory listings of the filesystem, file modification times, and the
persisted-index file. -/
structure Env where
  config : String → Option WsSection
  conkyEnabled : Bool
  dirs : String → Option (List String)
  mtime : String → Int
  stateFS : StateFS

/-- `get_ws_key` from `awp_daemon.py`: `f"ws{ws_num+1}"`. -/
def get_ws_key (ws_num : Nat) : String := "ws" ++ toString (ws_num + 1)

/-- The `Workspace` object of `awp_daemon.py` (numbers are exact integers;
`next_switch_time` is an integer timestamp). -/
structure Workspace where
  num : Nat
  key : String
  folder : String
  timing_str : String
  timing : Int
  mode : String
  order : String
  scaling : String
  images : List String
  index : Int
  next_switch_time : Int
deriving DecidableEq

/-- The index re-read inside `reload_images_and_index`:
`int(state.get(self.key, 0) or 0)`.  (`or 0` only turns a falsy stored `0`
into `0`, and `int` of an `int` is the identity.) -/
def stored_index (state : List (String × Int)) (key : String) : Int :=
  match state.lookup key with
  | some v => v
  | none => 0

/-- The clamp at the end of `reload_images_and_index`:
`if not self.images or self.index >= len(self.images): self.index = 0`. -/
def clamp_index (imgs : List String) (idx : Int) : Int :=
  if imgs.isEmpty ∨ (imgs.length : Int) ≤ idx then 0 else idx

/-- The first half of `Workspace.reload_images_and_index`: when the `wsN`
section exists in the re-read configuration, refresh the per-workspace
settings (`folder` keeps its old value when absent; the other keys fall back
to their defaults). -/
def reload_settings (env : Env) (ws : Workspace) : Workspace :=
  match env.config (get_ws_key ws.num) with
  | some c =>
    { ws with
      folder := c.folder.getD ws.folder
      timing_str := c.timing.getD "1m"
      timing := ws_timing (c.timing.getD "1m")
      mode := c.mode.getD "random"
      order := c.order.getD "name_az"
      scaling := c.scaling.getD "scaled" }
  | none => ws

/-- The scan-and-sort step of `Workspace.reload_images_and_index`: random mode
is normalized to `name_az` order. -/
def reload_scan (env : Env) (ws1 : Workspace) : List String :=
  let imgs0 := load_images (env.dirs ws1.folder)
  if ws1.mode = "sequential" then sort_images env.mtime imgs0 ws1.order
  else sort_images env.mtime imgs0 "name_az"

/-- `Workspace.reload_images_and_index` from `awp_daemon.py`: refresh
settings, re-scan and re-sort the images, re-read the persisted index and
clamp it. -/
def reload_images_and_index (env : Env) (ws : Workspace) : Workspace :=
  let ws1 := reload_settings env ws
  let imgs := reload_scan env ws1
  { ws1 with
    images := imgs
    index := clamp_index imgs (stored_index (load_state env.stateFS) ws1.key) }

lemma reload_settings_key (env : Env) (ws : Workspace) :
    (reload_settings env ws).key = ws.key := by
  unfold reload_settings
  cases env.config (get_ws_key ws.num) <;> rfl

lemma lookup_mem_pairs {st : List (String × Int)} {k : String} {v : Int}
    (h : st.lookup k = some v) : (k, v) ∈ st := by
  induction st with
  | nil => simp [List.lookup] at h
  | cons p t ih =>
    rcases p with ⟨a, b⟩
    rw [List.lookup] at h
    by_cases hk : k = a
    · subst hk
      simp only [beq_self_eq_true] at h
      simp only [Option.some.injEq] at h
      rw [← h]
      exact List.mem_cons_self _ _
    · rw [beq_eq_false_iff_ne.mpr hk] at h
      exact List.mem_cons_of_mem _ (ih h)

lemma stored_index_nonneg (st : List (String × Int)) (k : String)
    (h : ∀ p ∈ st, 0 ≤ p.2) : 0 ≤ stored_index st k := by
  unfold stored_index
  cases hl : st.lookup k with
  | none => exact le_refl 0
  | some v => exact h _ (lookup_mem_pairs hl)

lemma clamp_index_spec (imgs : List String) (idx : Int) (h0 : 0 ≤ idx) :
    0 ≤ clamp_index imgs idx ∧
    (imgs ≠ [] → clamp_index imgs idx < (imgs.length : Int)) ∧
    (imgs = [] → clamp_index imgs idx = 0) ∧
    ((imgs.length : Int) ≤ idx → clamp_index imgs idx = 0) := by
  unfold clamp_index
  by_cases h : imgs.isEmpty ∨ (imgs.length : Int) ≤ idx
  · rw [if_pos h]
    refine ⟨le_refl 0, fun hne => ?_, fun _ => rfl, fun _ => rfl⟩
    have : 0 < imgs.length := List.length_pos.mpr hne
    exact_mod_cast this
  · rw [if_neg h]
    push_neg at h
    obtain ⟨h1, h2⟩ := h
    refine ⟨h0, fun _ => h2, fun he => ?_, fun hle => absurd hle (not_le.mpr h2)⟩
    rw [he] at h1
    simp at h1

/-- C1: after `reload_images_and_index`, whatever valid persisted index map is
on disk (non-negative stored values, per the PersistedIndexMap data model),
the in-memory index is a valid offset into the freshly scanned list —
non-negative, strictly below the length when the list is non-empty, `0` when
it is empty — and any stored index at least the scanned count is clamped to
`0`. -/
theorem reload_index_valid (env : Env) (ws : Workspace)
    (hvals : ∀ p ∈ load_state env.stateFS, 0 ≤ p.2) :
    0 ≤ (reload_images_and_index env ws).index ∧
    ((reload_images_and_index env ws).images ≠ [] →
      (reload_images_and_index env ws).index <
        ((reload_images_and_index env ws).images.length : Int)) ∧
    ((reload_images_and_index env ws).images = [] →
      (reload_images_and_index env ws).index = 0) ∧
    (∀ v, (load_state env.stateFS).lookup ws.key = some v →
      ((reload_images_and_index env ws).images.length : Int) ≤ v →
      (reload_images_and_index env ws).index = 0) := by
  have hkey : (reload_settings env ws).key = ws.key := reload_settings_key env ws
  have h0 : 0 ≤ stored_index (load_state env.stateFS) (reload_settings env ws).key :=
    stored_index_nonneg _ _ hvals
  obtain ⟨a, b, c, d⟩ :=
    clamp_index_spec (reload_scan env (reload_settings env ws)) _ h0
  refine ⟨a, b, c, fun v hv hlen => ?_⟩
  have hsv : stored_index (load_state env.stateFS) ws.key = v := by
    unfold stored_index
    rw [hv]
  exact d (by rw [hkey, hsv]; exact hlen)

def c1_env : Env :=
  { config := fun _ => none
    conkyEnabled := false
    dirs := fun _ => some ["b.png", "a.jpg"]
    mtime := fun _ => 0
    stateFS := { real := some (.jsonMap [("ws1", 7)]), tmp := none } }

def c1_ws : Workspace :=
  { num := 0, key := "ws1", folder := "wall", timing_str := "1m", timing := 60
    mode := "random", order := "name_az", scaling := "scaled"
    images := [], index := 0, next_switch_time := 0 }

/-- Witness for C1: a persisted index of 7 against a freshly scanned
two-image folder. -/
theorem reload_index_valid_witness :
    0 ≤ (reload_images_and_index c1_env c1_ws).index ∧
    ((reload_images_and_index c1_env c1_ws).images ≠ [] →
      (reload_images_and_index c1_env c1_ws).index <
        ((reload_images_and_index c1_env c1_ws).images.length : Int)) ∧
    ((reload_images_and_index c1_env c1_ws).images = [] →
      (reload_images_and_index c1_env c1_ws).index = 0) ∧
    (∀ v, (load_state c1_env.stateFS).lookup c1_ws.key = some v →
      ((reload_images_and_index c1_env c1_ws).images.length : Int) ≤ v →
      (reload_images_and_index c1_env c1_ws).index = 0) :=
  reload_index_valid c1_env c1_ws (by decide)

/-- Counterexample for C7: "a.jpeg" has the allow-listed extension "jpeg" as
the spec words it, yet the scan does not return it — the glob patterns only
match three-letter ".jpg"/".png" suffixes. -/
theorem scan_jpeg_counterexample :
    spec_scan_keeps "a.jpeg" = true ∧ load_images (some ["a.jpeg"]) = [] := by
  exact ⟨by decide, by decide⟩

/-- C7 as amended: the scan of a missing or non-directory folder is empty,
and a scanned folder yields exactly the files whose last four characters
lowercase to ".jpg" or ".png" — so extensions jpg and png case-insensitively,
but not jpeg. -/
theorem scan_amended (files : List String) (name : String) :
    load_images none = [] ∧
    (name ∈ load_images (some files) ↔
      name ∈ files ∧
        (last4_lower name = ".jpg".data ∨ last4_lower name = ".png".data)) := by
  refine ⟨rfl, ?_⟩
  simp only [load_images, List.mem_append, List.mem_filter, is_jpg_name, is_png_name,
    beq_iff_eq]
  tauto

/-- C8 as amended: the reloaded interval is `parse_timing(timing) or 60` of
the configured timing string (falling back to "1m"); that expression yields
60 when parsing fails or yields 0, and otherwise the parsed value itself — at
least 1 when the parsed value is positive, but negative for a parseable
negative timing string. -/
theorem timing_spec (env : Env) (ws : Workspace) (c : WsSection) (s : String)
    (hc : env.config (get_ws_key ws.num) = some c) :
    (reload_images_and_index env ws).timing = ws_timing (c.timing.getD "1m") ∧
    (parse_timing s = none → ws_timing s = 60) ∧
    (parse_timing s = some 0 → ws_timing s = 60) ∧
    (∀ n, parse_timing s = some n → n ≠ 0 → ws_timing s = n) ∧
    (∀ n, parse_timing s = some n → 0 < n → 1 ≤ ws_timing s) := by
  refine ⟨?_, ?_, ?_, ?_, ?_⟩
  · show (reload_settings env ws).timing = _
    unfold reload_settings
    rw [hc]
  · intro h
    unfold ws_timing
    rw [h]
  · intro h
    unfold ws_timing
    rw [h]
    rfl
  · intro n h hn
    unfold ws_timing
    rw [h]
    exact if_neg hn
  · intro n h hn
    unfold ws_timing
    rw [h]
    show (1 : Int) ≤ if n = 0 then 60 else n
    rw [if_neg (by omega)]
    omega

def c8_env : Env :=
  { config := fun _ => some
      { folder := none, timing := some "-5s", mode := none, order := none
        scaling := none, icon := none, icon_color := none }
    conkyEnabled := false
    dirs := fun _ => some ["a.jpg"]
    mtime := fun _ => 0
    stateFS := { real := none, tmp := none } }

def c8_ws : Workspace :=
  { num := 0, key := "ws1", folder := "wall", timing_str := "1m", timing := 60
    mode := "random", order := "name_az", scaling := "scaled"
    images := [], index := 0, next_switch_time := 0 }

/-- Counterexample for C8: a configured timing of "-5s" parses to -5, which
is truthy, so `parse_timing(...) or 60` keeps it: the reloaded interval is
-5, not an integer at least 1 and not the claimed default 60. -/
theorem timing_counterexample :
    (reload_images_and_index c8_env c8_ws).timing = -5 ∧
    ¬ (1 ≤ (reload_images_and_index c8_env c8_ws).timing) := by
  constructor
  · decide
  · decide

/-- Witness for C8's amended theorem: a well-formed "5m" yields 300 seconds. -/
theorem timing_spec_witness : ws_timing "5m" = 300 :=
  (timing_spec c8_env c8_ws _ "5m" rfl).2.2.2.1 300 (by decide) (by decide)

/-- `Workspace.pick_next_index` from `awp_daemon.py`.  The rejection-sampling
`while` loop is modelled by the stream `draws` of successive
`random.randint(0, len(images)-1)` outputs: the loop returns the first draw
different from the current index, and `none` models the (probability-zero)
case that the supplied stream never differs. -/
def pick_next_index (ws : Workspace) (draws : List Int) : Option Int :=
  if ws.images.isEmpty then some 0
  else if ws.mode = "random" then
    if ws.images.length = 1 then some 0
    else draws.find? (fun d => d != ws.index)
  else some ((ws.index + 1) % (ws.images.length : Int))

/-- C2: in random mode, pick-next returns 0 for an empty image list and for a
single image; with more than one image, whenever the `randint` draws are in
range (its contract) and some draw differs from the current index (the loop
terminates), the result is an in-range index different from the current
one. -/
theorem pick_random_spec (ws : Workspace) (draws : List Int)
    (hmode : ws.mode = "random") :
    (ws.images = [] → pick_next_index ws draws = some 0) ∧
    (ws.images.length = 1 → pick_next_index ws draws = some 0) ∧
    (1 < ws.images.length →
      (∀ d ∈ draws, 0 ≤ d ∧ d < (ws.images.length : Int)) →
      (∃ d ∈ draws, d ≠ ws.index) →
      ∃ j, pick_next_index ws draws = some j ∧
        0 ≤ j ∧ j < (ws.images.length : Int) ∧ j ≠ ws.index) := by
  unfold pick_next_index
  refine ⟨fun he => ?_, fun h1 => ?_, fun hlen hrange hdiff => ?_⟩
  · rw [if_pos (by simp [he])]
  · have hne : ¬ ws.images.isEmpty := by
      cases hi : ws.images with
      | nil => rw [hi] at h1; simp at h1
      | cons a t => simp [hi]
    rw [if_neg (by simp_all), if_pos hmode, if_pos h1]
  · have hne : ¬ (ws.images.isEmpty = true) := by
      cases hi : ws.images with
      | nil => rw [hi] at hlen; simp at hlen
      | cons a t => simp [hi]
    rw [if_neg hne, if_pos hmode, if_neg (by omega)]
    obtain ⟨d, hd, hdne⟩ := hdiff
    have hsome : (draws.find? (fun d => d != ws.index)).isSome = true := by
      rw [List.find?_isSome]
      exact ⟨d, hd, by simpa using hdne⟩
    obtain ⟨j, hj⟩ := Option.isSome_iff_exists.mp hsome
    have hjmem : j ∈ draws := List.mem_of_find?_eq_some hj
    have hjne : j ≠ ws.index := by simpa using List.find?_some hj
    obtain ⟨hj0, hjlt⟩ := hrange j hjmem
    exact ⟨j, hj, hj0, hjlt, hjne⟩

def c2_ws : Workspace :=
  { num := 0, key := "ws1", folder := "wall", timing_str := "1m", timing := 60
    mode := "random", order := "name_az", scaling := "scaled"
    images := ["a.jpg", "b.jpg", "c.png"], index := 0, next_switch_time := 0 }

/-- Witness for C2: three images, current index 0, draws 0 then 2 — the
rejection loop skips the repeated 0 and lands on 2. -/
theorem pick_random_spec_witness :
    ∃ j, pick_next_index c2_ws [0, 2] = some j ∧
      0 ≤ j ∧ j < (c2_ws.images.length : Int) ∧ j ≠ c2_ws.index :=
  (pick_random_spec c2_ws [0, 2] (by decide)).2.2 (by decide) (by decide)
    ⟨2, by decide, by decide⟩

/-- One rotation step in sequential mode: the workspace with its index
replaced by the picked index (no draws are consumed in sequential mode). -/
def seq_step (ws : Workspace) : Workspace :=
  match pick_next_index ws [] with
  | some i => { ws with index := i }
  | none => ws

lemma pick_sequential_eq (ws : Workspace) (draws : List Int)
    (hmode : ws.mode = "sequential") (hne : ws.images ≠ []) :
    pick_next_index ws draws = some ((ws.index + 1) % (ws.images.length : Int)) := by
  unfold pick_next_index
  rw [if_neg (by simp [hne]), if_neg (by rw [hmode]; decide)]

lemma seq_step_images (ws : Workspace) : (seq_step ws).images = ws.images := by
  unfold seq_step
  cases pick_next_index ws [] <;> rfl

lemma seq_step_mode (ws : Workspace) : (seq_step ws).mode = ws.mode := by
  unfold seq_step
  cases pick_next_index ws [] <;> rfl

lemma seq_step_index (ws : Workspace) (hmode : ws.mode = "sequential")
    (hne : ws.images ≠ []) :
    (seq_step ws).index = (ws.index + 1) % (ws.images.length : Int) := by
  unfold seq_step
  rw [pick_sequential_eq ws [] hmode hne]

lemma seq_iter_fixed (ws : Workspace) (k : Nat) :
    (seq_step^[k] ws).images = ws.images ∧ (seq_step^[k] ws).mode = ws.mode := by
  induction k with
  | zero => exact ⟨rfl, rfl⟩
  | succ k ih =>
    rw [Function.iterate_succ_apply']
    exact ⟨(seq_step_images _).trans ih.1, (seq_step_mode _).trans ih.2⟩

lemma seq_iter_index (ws : Workspace) (hmode : ws.mode = "sequential")
    (hne : ws.images ≠ []) (h0 : ws.index = 0) (k : Nat)
    (hk : k ≤ ws.images.length) :
    (seq_step^[k] ws).index = (k : Int) % (ws.images.length : Int) := by
  induction k with
  | zero =>
    have hpos : 0 < ws.images.length := List.length_pos.mpr hne
    simp only [Function.iterate_zero, id_eq, h0, Nat.cast_zero]
    rw [Int.zero_emod]
  | succ k ih =>
    have hk' : k ≤ ws.images.length := Nat.le_of_succ_le hk
    rw [Function.iterate_succ_apply']
    have hfix := seq_iter_fixed ws k
    have hmode' : (seq_step^[k] ws).mode = "sequential" := hfix.2.trans hmode
    have hne' : (seq_step^[k] ws).images ≠ [] := by rw [hfix.1]; exact hne
    rw [seq_step_index _ hmode' hne', hfix.1, ih hk']
    push_cast
    rw [Int.add_emod, Int.emod_emod_of_dvd, ← Int.add_emod]
    exact dvd_refl _

/-- C3: in sequential mode with a non-empty image list, pick-next returns
`(currentIndex + 1) mod len(images)` whatever the random draws; consequently,
starting from index 0, the first `len` rotation steps visit index `k` at step
`k` — every index exactly once, in the order of the sorted list — and step
`len` wraps back to 0. -/
theorem pick_sequential_cycle (ws : Workspace) (draws : List Int)
    (hmode : ws.mode = "sequential") (hne : ws.images ≠ []) :
    pick_next_index ws draws = some ((ws.index + 1) % (ws.images.length : Int)) ∧
    (ws.index = 0 →
      (∀ k, k < ws.images.length → (seq_step^[k] ws).index = (k : Int)) ∧
      (seq_step^[ws.images.length] ws).index = 0) := by
  refine ⟨pick_sequential_eq ws draws hmode hne, fun h0 => ⟨fun k hk => ?_, ?_⟩⟩
  · rw [seq_iter_index ws hmode hne h0 k (Nat.le_of_lt hk)]
    exact Int.emod_eq_of_lt (by positivity) (by exact_mod_cast hk)
  · rw [seq_iter_index ws hmode hne h0 ws.images.length (le_refl _)]
    exact Int.emod_self

def c3_ws : Workspace :=
  { num := 0, key := "ws1", folder := "wall", timing_str := "1m", timing := 60
    mode := "sequential", order := "name_az", scaling := "scaled"
    images := ["a.jpg", "b.png", "c.png"], index := 0, next_switch_time := 0 }

/-- Witness for C3: from index 0 over three images, one step lands on 1. -/
theorem pick_sequential_cycle_witness :
    pick_next_index c3_ws [] = some ((c3_ws.index + 1) % (c3_ws.images.length : Int)) ∧
    (seq_step^[1] c3_ws).index = 1 :=
  ⟨(pick_sequential_cycle c3_ws [] (by decide) (by decide)).1,
   ((pick_sequential_cycle c3_ws [] (by decide) (by decide)).2 rfl).1 1 (by decide)⟩

/-- Python list indexing `l[i]`: negative indices count from the end; an index
outside `[-len, len)` raises `IndexError` (modelled as `none`). -/
def py_list_get (l : List String) (i : Int) : Option String :=
  let j := if i < 0 then (l.length : Int) + i else i
  if 0 ≤ j then l.get? j.toNat else none

/-- Python dict assignment `state[key] = v` on the loaded map: replace the
value of an existing key in place, else append the pair. -/
def set_key (st : List (String × Int)) (k : String) (v : Int) : List (String × Int) :=
  match st with
  | [] => [(k, v)]
  | (a, b) :: t => if a == k then (a, v) :: t else (a, b) :: set_key t k v

/-- What one `apply_index` (or one whole loop step) did: the updated workspace
object and state file, whether an uncaught exception escaped, the wallpaper
path dispatched to the backend (if any), and the telemetry file contents
written (if any). -/
structure TickOutcome where
  ws : Workspace
  stateFS : StateFS
  crashed : Bool
  wallpaperSet : Option String
  conkyWritten : Option (List (String × String))
deriving DecidableEq

/-- `Workspace.apply_index` from `awp_daemon.py`: re-read the state map, set
the in-memory index, write the updated map back (so the state file is updated
even when the subsequent list access raises), then look up
`self.images[self.index]` and dispatch it to `set_wallpaper` (an external
command whose chosen path is recorded in `wallpaperSet`).  The
`update_conky_state` call that would follow is commented out in the source,
so `conkyWritten` is always `none`. -/
def apply_index (env : Env) (ws : Workspace) (new_index : Int) : TickOutcome :=
  let fs1 := save_state (set_key (load_state env.stateFS) ws.key new_index) env.stateFS
  match py_list_get ws.images new_index with
  | some path =>
    { ws := { ws with index := new_index }, stateFS := fs1, crashed := false
      wallpaperSet := some path, conkyWritten := none }
  | none =>
    { ws := { ws with index := new_index }, stateFS := fs1, crashed := true
      wallpaperSet := none, conkyWritten := none }

/-- Python `str(bool)`. -/
def py_bool_str (b : Bool) : String := if b then "True" else "False"

/-- `update_conky_state` from `awp_daemon.py`: the full, overwritten contents
of the telemetry status file as key/value lines, with every per-workspace
value re-read from the configuration (with the source's fallbacks) and the
blanking status taken from the globals computed by `load_config`. -/
def update_conky_state (config : String → Option WsSection)
    (blanking_formatted : String) (blanking_pause : Bool)
    (workspace_name wallpaper_path : String) : List (String × String) :=
  [("wallpaper_path", wallpaper_path),
   ("workspace_name", workspace_name),
   ("logo_path", ((config workspace_name).bind WsSection.icon).getD ""),
   ("icon_color", ((config workspace_name).bind WsSection.icon_color).getD "#109daf"),
   ("intv", ((config workspace_name).bind WsSection.timing).getD "10s"),
   ("flow", ((config workspace_name).bind WsSection.mode).getD "random"),
   ("sort", ((config workspace_name).bind WsSection.order).getD "n"),
   ("view", ((config workspace_name).bind WsSection.scaling).getD "scaled"),
   ("blanking_timeout", blanking_formatted),
   ("blanking_paused", py_bool_str blanking_pause)]

/-- The switch-event branch of `main_loop`: reload, re-apply the current
(persisted) index unchanged, then reset the timer and re-dispatch the panel
icon and theme set (external commands, not modelled).  If `apply_index`
raises, the exception propagates before the timer is touched. -/
def switch_event (env : Env) (now : Int) (ws : Workspace) : TickOutcome :=
  let ws1 := reload_images_and_index env ws
  let o := apply_index env ws1 ws1.index
  if o.crashed then o
  else { o with ws := { o.ws with next_switch_time := now + o.ws.timing } }

/-- The rotation-event branch of `main_loop`: reload; when images exist, pick
and apply the next index; in either case reset the timer (unless an exception
propagated first).  `none` models the probability-zero divergence of the
rejection-sampling loop. -/
def rotation_event (env : Env) (now : Int) (ws : Workspace) (draws : List Int) :
    Option TickOutcome :=
  let ws1 := reload_images_and_index env ws
  if ws1.images.isEmpty then
    some { ws := { ws1 with next_switch_time := now + ws1.timing }, stateFS := env.stateFS
           crashed := false, wallpaperSet := none, conkyWritten := none }
  else
    match pick_next_index ws1 draws with
    | none => none
    | some i =>
      let o := apply_index env ws1 i
      some (if o.crashed then o
            else { o with ws := { o.ws with next_switch_time := now + o.ws.timing } })

/-- Python `str.split()` with no argument: split on whitespace runs,
discarding empty pieces. -/
def split_on_ws (l : List Char) : List (List Char) :=
  (l.foldr (fun c acc =>
      if c.isWhitespace then [] :: acc
      else match acc with
        | [] => [[c]]
        | w :: rest => (c :: w) :: rest) ([] : List (List Char))).filter
    (fun w => !w.isEmpty)

/-- `get_current_workspace` from `awp_daemon.py`:
`int(subprocess.check_output(["xprop", ...]).strip().split()[-1])`.  The
argument is the command's stdout, `none` when the command fails
(`check_output` raises).  Any raised exception — command failure, empty
output, non-numeric last token — is modelled as `none`; the caller does not
catch it. -/
def get_current_workspace (xprop_out : Option String) : Option Int :=
  match xprop_out with
  | none => none
  | some out =>
    match (split_on_ws (strip_ws out.data)).getLast? with
    | none => none
    | some tok => py_int_chars tok

/-- Result of one iteration of `main_loop`: an uncaught exception terminating
the daemon, a sleep-and-continue tick (no registered workspace), or a
completed tick carrying its outcome and the new `last_ws`. -/
inductive TickResult where
  | crash
  | noop
  | ran (o : TickOutcome) (last : Int)
deriving DecidableEq

/-- One iteration of `main_loop` from `awp_daemon.py`: query the active
workspace (an exception here propagates and kills the loop), find its
controller, run the switch event if the workspace changed, then the rotation
event if the timer expired.  `none` models divergence of the random
rejection loop. -/
def main_tick (env : Env) (xprop_out : Option String)
    (workspaces : Int → Option Workspace) (last_ws : Option Int) (now : Int)
    (draws : List Int) : Option TickResult :=
  match get_current_workspace xprop_out with
  | none => some .crash
  | some n =>
    match workspaces n with
    | none => some .noop
    | some ws =>
      if last_ws ≠ some n then
        let o := switch_event env now ws
        if o.crashed then some .crash
        else
          let env1 := { env with stateFS := o.stateFS }
          if o.ws.next_switch_time ≤ now then
            match rotation_event env1 now o.ws draws with
            | none => none
            | some o2 => some (if o2.crashed then .crash else .ran o2 n)
          else some (.ran o n)
      else
        if ws.next_switch_time ≤ now then
          match rotation_event env now ws draws with
          | none => none
          | some o2 => some (if o2.crashed then .crash else .ran o2 n)
        else
          some (.ran { ws := ws, stateFS := env.stateFS, crashed := false
                       wallpaperSet := none, conkyWritten := none } n)

lemma py_list_get_nil (i : Int) : py_list_get [] i = none := by
  unfold py_list_get
  simp

lemma apply_index_empty (env : Env) (ws : Workspace) (i : Int)
    (h : ws.images = []) : (apply_index env ws i).crashed = true := by
  unfold apply_index
  rw [h, py_list_get_nil]

/-- C4 as amended: when the active workspace's reload yields an empty images
sequence, a rotation event is a completed no-op — no crash, no wallpaper
dispatch — but a switch event on that workspace does crash: `apply_index`
evaluates `self.images[self.index]` unconditionally and the `IndexError` on
the empty list propagates out of the loop. -/
theorem empty_reload_events (env : Env) (now : Int) (ws : Workspace)
    (draws : List Int) (h : (reload_images_and_index env ws).images = []) :
    (∃ o, rotation_event env now ws draws = some o ∧
      o.crashed = false ∧ o.wallpaperSet = none) ∧
    (switch_event env now ws).crashed = true := by
  have hemp : (reload_images_and_index env ws).images.isEmpty = true := by
    rw [h]
    rfl
  constructor
  · have hrot : rotation_event env now ws draws =
        some { ws := { reload_images_and_index env ws with
                        next_switch_time := now + (reload_images_and_index env ws).timing }
               stateFS := env.stateFS, crashed := false, wallpaperSet := none
               conkyWritten := none } := by
      simp only [rotation_event]
      rw [if_pos hemp]
    exact ⟨_, hrot, rfl, rfl⟩
  · have hc : (apply_index env (reload_images_and_index env ws)
        (reload_images_and_index env ws).index).crashed = true :=
      apply_index_empty _ _ _ h
    simp only [switch_event]
    rw [if_pos hc]
    exact hc

def c4_env : Env :=
  { config := fun _ => none
    conkyEnabled := false
    dirs := fun _ => some []
    mtime := fun _ => 0
    stateFS := { real := none, tmp := none } }

def c4_ws : Workspace :=
  { num := 2, key := "ws3", folder := "wall", timing_str := "1m", timing := 60
    mode := "random", order := "name_az", scaling := "scaled"
    images := [], index := 0, next_switch_time := 0 }

def c4_workspaces : Int → Option Workspace :=
  fun n => if n = 2 then some c4_ws else none

/-- Counterexample for C4: with an emptied wallpaper folder, the very next
tick that switches to that workspace crashes the loop (the claim says every
tick completes without an out-of-range access). -/
theorem empty_folder_switch_counterexample :
    (reload_images_and_index c4_env c4_ws).images = [] ∧
    main_tick c4_env (some "_NET_CURRENT_DESKTOP(CARDINAL) = 2") c4_workspaces
      none 0 [] = some TickResult.crash := by
  exact ⟨by decide, by decide⟩

/-- Witness for C4's amended theorem at the same emptied-folder workspace. -/
theorem empty_reload_events_witness :
    (∃ o, rotation_event c4_env 0 c4_ws [] = some o ∧
      o.crashed = false ∧ o.wallpaperSet = none) ∧
    (switch_event c4_env 0 c4_ws).crashed = true :=
  empty_reload_events c4_env 0 c4_ws [] (by decide)

/-- C9 (the claim is what the spec requires; this theorem documents the
code's divergence from it): when the `xprop` workspace query fails,
`check_output` raises, `main_loop` does not catch it, and the tick ends as a
crash of the daemon — for every environment, workspace table, previous
workspace and time — never as the sleep-and-retry no-op the spec
prescribes. -/
theorem probe_failure_crashes_tick (env : Env)
    (workspaces : Int → Option Workspace) (last_ws : Option Int) (now : Int)
    (draws : List Int) :
    get_current_workspace none = none ∧
    main_tick env none workspaces last_ws now draws = some TickResult.crash :=
  ⟨rfl, rfl⟩

def c10_env : Env :=
  { config := fun _ => some
      { folder := some "wall", timing := some "5m", mode := some "random"
        order := some "name_az", scaling := some "scaled"
        icon := some "icon.png", icon_color := some "#336699" }
    conkyEnabled := true
    dirs := fun _ => some ["a.jpg"]
    mtime := fun _ => 0
    stateFS := { real := none, tmp := none } }

def c10_ws : Workspace :=
  { num := 0, key := "ws1", folder := "wall", timing_str := "5m", timing := 300
    mode := "random", order := "name_az", scaling := "scaled"
    images := ["a.jpg"], index := 0, next_switch_time := 0 }

/-- Counterexample for C10: the configuration's conky section enables
telemetry, the apply-index succeeds, and yet no telemetry file is written —
the `update_conky_state` call in `apply_index` is commented out and the
daemon never reads the `enabled` flag. -/
theorem conky_counterexample :
    c10_env.conkyEnabled = true ∧
    (apply_index c10_env c10_ws 0).crashed = false ∧
    (apply_index c10_env c10_ws 0).conkyWritten = none := by
  exact ⟨rfl, by decide, by decide⟩

/-- C10 as amended: apply-index never writes the telemetry file, whatever the
configuration says; the `update_conky_state` function itself, when invoked,
rewrites the file in full with exactly the keys the spec lists — wallpaper
path, workspace key, icon path, derived accent color, the
interval/mode/order/scaling strings, and the blanking status and pause
flag. -/
theorem conky_amended (env : Env) (ws : Workspace) (i : Int)
    (cfg : String → Option WsSection) (bf : String) (bp : Bool) (nm wp : String) :
    (apply_index env ws i).conkyWritten = none ∧
    (update_conky_state cfg bf bp nm wp).map Prod.fst =
      ["wallpaper_path", "workspace_name", "logo_path", "icon_color", "intv",
       "flow", "sort", "view", "blanking_timeout", "blanking_paused"] ∧
    (update_conky_state cfg bf bp nm wp).lookup "wallpaper_path" = some wp ∧
    (update_conky_state cfg bf bp nm wp).lookup "workspace_name" = some nm ∧
    (update_conky_state cfg bf bp nm wp).lookup "logo_path" =
      some (((cfg nm).bind WsSection.icon).getD "") ∧
    (update_conky_state cfg bf bp nm wp).lookup "blanking_timeout" = some bf ∧
    (update_conky_state cfg bf bp nm wp).lookup "blanking_paused" =
      some (py_bool_str bp) := by
  refine ⟨?_, ?_, ?_, ?_, ?_, ?_, ?_⟩
  · unfold apply_index
    cases py_list_get ws.images i <;> rfl
  · rfl
  · rfl
  · rfl
  · rfl
  · rfl
  · rfl

end AWP
